import Mathlib

/-!
Verification of the Seoul closed-schools / population-extinction dashboard
(`streamlit_app.py`). The pipeline's data model and operations are embedded
shallowly: pandas frames become lists of cell rows, pandas/NumPy floats become
`ℚ` with an explicit NaN constructor, exceptions become `Except`, and the
wall-clock "today" of the app becomes an explicit parameter.
-/

namespace Jibang

/-! ### Basic string helpers (Python `in`, `str.lower`, numeric parsing) -/

/-- Bool test that `p` is a prefix of `s` (on character lists). -/
def isPrefixChars : List Char → List Char → Bool
  | [], _ => true
  | _ :: _, [] => false
  | a :: as, b :: bs => a == b && isPrefixChars as bs

/-- Bool test that `p` occurs inside `s` (on character lists). -/
def isSubChars (p : List Char) : List Char → Bool
  | [] => isPrefixChars p []
  | b :: bs => isPrefixChars p (b :: bs) || isSubChars p bs

/-- Python's substring containment `p in s`. -/
def substrOf (p s : String) : Bool := isSubChars p.toList s.toList

/-- Python's `s.lower()` (as a character list, which is all the code compares). -/
def lowerChars (s : String) : List Char := s.toList.map Char.toLower

/-- Value of a nonempty all-digit character list, else `none`. -/
def digitsVal : List Char → Option Nat
  | [] => none
  | l =>
    if l.all Char.isDigit then
      some (l.foldl (fun a c => a * 10 + (c.toNat - 48)) 0)
    else none

/-- Python `int(s)` on a string: optional sign followed by digits. -/
def parseIntChars : List Char → Option Int
  | '-' :: rest => (digitsVal rest).map (fun n => -(n : Int))
  | '+' :: rest => (digitsVal rest).map (fun n => (n : Int))
  | l => (digitsVal l).map (fun n => (n : Int))

/-- Split a character list at the occurrences of `'.'`. -/
def splitOnDot : List Char → List (List Char)
  | [] => [[]]
  | c :: t =>
    let r := splitOnDot t
    if c = '.' then [] :: r
    else
      match r with
      | h :: t2 => (c :: h) :: t2
      | [] => [[c]]

/-- Python `float(s)` on an unsigned decimal literal (`"12"`, `"12.5"`, `".5"`, `"12."`). -/
def parseUnsignedRat : List Char → Option ℚ
  | l =>
    match splitOnDot l with
    | [a] => (digitsVal a).map (fun n => (n : ℚ))
    | [a, b] =>
      if a = [] ∧ b = [] then none
      else
        let ia := if a = [] then some 0 else digitsVal a
        let ib := if b = [] then some 0 else digitsVal b
        match ia, ib with
        | some n, some f => some ((n : ℚ) + (f : ℚ) / (10 : ℚ) ^ b.length)
        | _, _ => none
    | _ => none

/-- Python `float(s)`: optional sign, then an unsigned decimal literal. -/
def parseRatChars : List Char → Option ℚ
  | '-' :: rest => (parseUnsignedRat rest).map (fun q => -q)
  | '+' :: rest => parseUnsignedRat rest
  | l => parseUnsignedRat l

/-! ### Cells, frames, dates -/

/-- A pandas cell: a string, a finite float (as `ℚ`), or NaN/missing. -/
inductive Cell where
  | str (s : String)
  | num (q : ℚ)
  | nan
deriving DecidableEq

/-- A pandas DataFrame: named columns and rows of cells. -/
structure Frame where
  cols : List String
  rows : List (List Cell)

/-- A calendar date (the pipeline's timestamps are all midnight, Asia/Seoul). -/
structure Date where
  y : Int
  m : Int
  d : Int
deriving DecidableEq

/-- Strict calendar order on dates; `dateLtB a b` is the comparison
`Timestamp(a, 00:00, Asia/Seoul) < Timestamp(b, 00:00, Asia/Seoul)`. -/
def dateLtB (a b : Date) : Bool :=
  decide (a.y < b.y) ||
    (decide (a.y = b.y) &&
      (decide (a.m < b.m) || (decide (a.m = b.m) && decide (a.d < b.d))))

/-- Model of `pd.to_numeric(x, errors="coerce")` on one cell: numbers pass through,
parsable strings become numbers, everything else becomes NaN. -/
def parseNumeric : Cell → Cell
  | Cell.num q => Cell.num q
  | Cell.nan => Cell.nan
  | Cell.str s =>
    match parseRatChars s.toList with
    | some q => Cell.num q
    | none => Cell.nan

/-- Python `str(x)` on a cell (used by the `"서울"` row filter). -/
def cellStr : Cell → String
  | Cell.str s => s
  | Cell.num q => if q.den = 1 then toString q.num ++ ".0" else toString q
  | Cell.nan => "nan"

/-- Python `int(x)` on a cell, as `.astype(int)` applies it elementwise:
floats truncate toward zero, integer-literal strings parse, NaN raises. -/
def pyInt : Cell → Option Int
  | Cell.num q => some (q.num.tdiv (q.den : Int))
  | Cell.str s => parseIntChars s.toList
  | Cell.nan => none

/-- Model of `pd.to_datetime(str(y) ++ "-01-01")`: succeeds exactly for years whose
January 1st fits in the `datetime64[ns]` range (1677-09-21 … 2262-04-11). -/
def toDatetimeYear : Int → Option Date
  | y => if 1678 ≤ y ∧ y ≤ 2262 then some ⟨y, 1, 1⟩ else none

/-! ### Insertion sort (the model of `sort_values`; claims only use that the
result is a permutation of the input) -/

def insLe {α : Type} (le : α → α → Bool) (a : α) : List α → List α
  | [] => [a]
  | b :: t => if le a b then a :: b :: t else b :: insLe le a t

def sortLe {α : Type} (le : α → α → Bool) (l : List α) : List α :=
  l.foldr (insLe le) []

theorem insLe_perm {α : Type} (le : α → α → Bool) (a : α) (l : List α) :
    List.Perm (insLe le a l) (a :: l) := by
  induction l with
  | nil => simp [insLe]
  | cons b t ih =>
    simp only [insLe]
    by_cases h : le a b
    · simp [h]
    · simp only [h, if_neg, Bool.false_eq_true, not_false_eq_true]
      exact List.Perm.trans (List.Perm.cons b ih) (List.Perm.swap a b t)

theorem sortLe_perm {α : Type} (le : α → α → Bool) (l : List α) :
    List.Perm (sortLe le l) l := by
  induction l with
  | nil => exact List.Perm.refl _
  | cons a t ih =>
    exact List.Perm.trans (insLe_perm le a (sortLe le t)) (List.Perm.cons a ih)

theorem mem_sortLe {α : Type} (le : α → α → Bool) (l : List α) (a : α) :
    a ∈ sortLe le l ↔ a ∈ l :=
  (sortLe_perm le l).mem_iff

/-! ### `seoul_midnight_today` and `remove_future_rows`

Timestamps are minutes. A pandas datetime series carries one timezone for the
whole series: `seriesTz = none` models a naive series (wall-clock minutes,
assumed Asia/Seoul), `seriesTz = some off` a tz-aware series whose wall clock
is at UTC offset `off` minutes. `nowSeoulWall` is the current wall-clock
minute count in Asia/Seoul (`datetime.now(TZ)`). -/

/-- UTC+9 in minutes. -/
def seoulUtcOffsetMin : Int := 540

/-- Model of `seoul_midnight_today`: today's 00:00 in Asia/Seoul, i.e. the current
Seoul wall-clock time floored to a day boundary. -/
def seoul_midnight_today (nowSeoulWall : Int) : Int :=
  nowSeoulWall - nowSeoulWall % 1440

/-- Normalization step of `remove_future_rows`: a naive timestamp is
tz-localized to Asia/Seoul (wall clock unchanged); a tz-aware one is
tz-converted (same instant, Seoul wall clock). -/
def toSeoulWallMin (seriesTz : Option Int) (wall : Int) : Int :=
  match seriesTz with
  | none => wall
  | some off => wall - off + seoulUtcOffsetMin

/-- Model of `remove_future_rows`: normalize the date column to Asia/Seoul, then keep
the rows strictly before today's Seoul midnight. Each row is its timestamp
(in the series timezone) paired with its other-column payload. -/
def remove_future_rows {α : Type} (seriesTz : Option Int) (nowSeoulWall : Int)
    (rows : List (Int × α)) : List (Int × α) :=
  (rows.map (fun p => (toSeoulWallMin seriesTz p.1, p.2))).filter
    (fun p => decide (p.1 < seoul_midnight_today nowSeoulWall))

/-! ### `moving_average` -/

/-- One output cell of `series.rolling(window=w, min_periods=m).mean()`:
the mean of the non-NaN entries among the last `min (i+1) w` entries,
provided at least `m` of them are non-NaN. -/
def rollingMeanAt (w m : Nat) (s : List (Option ℚ)) (i : Nat) : Option ℚ :=
  let window := (s.take (i + 1)).drop (i + 1 - w)
  let vals := window.filterMap id
  if m ≤ vals.length then some (vals.sum / (vals.length : ℚ)) else none

/-- Model of `moving_average(series, window)`: the series itself when `window` is
`None` or `≤ 1`, else a trailing rolling mean with
`min_periods = max(1, window // 2)`. -/
def moving_average (window : Option Int) (s : List (Option ℚ)) : List (Option ℚ) :=
  match window with
  | none => s
  | some w =>
    if w ≤ 1 then s
    else (List.range s.length).map (rollingMeanAt w.toNat (max 1 (w.toNat / 2)) s)

/-! ### `compute_extinction_index` -/

/-- Column-name predicate for the year column: `"연도" in c or c.lower() == "year"`. -/
def colYPred (c : String) : Bool := substrOf "연도" c || lowerChars c == "year".toList

/-- Column-name predicate for the district column:
`"자치구" in c or "구" == c or "district" in c.lower()`. -/
def colGuPred (c : String) : Bool :=
  substrOf "자치구" c || c == "구" || isSubChars "district".toList (lowerChars c)

/-- Column-name predicate for the female-20-39 (numerator) column. -/
def colF2039Pred (c : String) : Bool :=
  substrOf "여성20" c || substrOf "20_39" c || (substrOf "여성" c && substrOf "20" c)

/-- Column-name predicate for the aged-65-plus (denominator) column. -/
def colAgedPred (c : String) : Bool :=
  (substrOf "65" c && substrOf "이상" c) || isSubChars "aged".toList (lowerChars c)

/-- The four column names `compute_extinction_index` works with. -/
structure ExtCols where
  cy : String
  cg : String
  cf : String
  ca : String
deriving DecidableEq

/-- Python truthiness of `next((...), None)`: `None` and `""` are falsy. -/
def truthyName : Option String → Bool
  | some s => !(s == "")
  | none => false

/-- Keyword search for the year/region/numerator/denominator columns, falling
back to the fixed default names when any search comes back falsy. -/
def resolveExtCols (cols : List String) : ExtCols :=
  let cy := cols.find? colYPred
  let cg := cols.find? colGuPred
  let cf := cols.find? colF2039Pred
  let ca := cols.find? colAgedPred
  if truthyName cy && truthyName cg && truthyName cf && truthyName ca then
    ⟨cy.getD "", cg.getD "", cf.getD "", ca.getD ""⟩
  else ⟨"연도", "자치구", "여성20_39", "고령65_이상"⟩

/-- IEEE-style intermediate for the pandas float division. -/
inductive PFloat where
  | fin (q : ℚ)
  | pinf
  | ninf
  | fnan
deriving DecidableEq

/-- Pandas float division of two (coerced) cells: `x / 0` is `+inf`, `-inf`
or NaN depending on the sign of `x`; any NaN operand gives NaN. -/
def cellDiv : Cell → Cell → PFloat
  | Cell.num a, Cell.num b =>
    if b = 0 then (if 0 < a then PFloat.pinf else if a < 0 then PFloat.ninf else PFloat.fnan)
    else PFloat.fin (a / b)
  | _, _ => PFloat.fnan

/-- Model of `.replace([np.inf, -np.inf], np.nan)`. -/
def replaceInfNan : PFloat → PFloat
  | PFloat.pinf => PFloat.fnan
  | PFloat.ninf => PFloat.fnan
  | p => p

/-- Model of the line `(여성20_39 / 고령65_이상).replace([inf, -inf], nan) * 100` on one row:
the derived extinction index as a cell (NaN for every division edge case). -/
def extIndexCell (f a : Cell) : Cell :=
  match replaceInfNan (cellDiv f a) with
  | PFloat.fin q => Cell.num (q * 100)
  | _ => Cell.nan

/-- A row of the long table before `dropna`: the `date`, `value` (still a
cell, possibly NaN) and `group` (still a cell, possibly NaN) columns. -/
structure PreRow where
  date : Date
  value : Cell
  group : Cell
deriving DecidableEq

/-- A long-table row after `dropna` (no `metric` column yet). -/
structure ExtRow where
  date : Date
  value : ℚ
  group : Cell
deriving DecidableEq

/-- A record of the final extinction-index long table
(`date, value, group, metric`). -/
structure ExtRec where
  date : Date
  value : ℚ
  group : Cell
  metric : String
deriving DecidableEq

/-- Index of a column for a selection `df[[c, ...]]`. -/
def colIndexOf (cols : List String) (c : String) : Option Nat :=
  cols.findIdx? (· == c)

/-- The date built from one year cell: `int(x)` then `to_datetime(..-01-01)`. -/
def extRowDate (c : Cell) : Option Date := (pyInt c).bind toDatetimeYear

/-- The first half of `compute_extinction_index`: resolve the four columns
(raising `KeyError` when a selected column does not exist), apply the
`df[[col_y, col_gu, col_f2039, col_65]].rename(...)` step, coerce the two
count columns with `to_numeric(errors="coerce")`, compute the index cell, and
build the `date` column (`astype(int)` plus `to_datetime` raise if any year
cell is unconvertible or out of the timestamp range).

When two resolved column names coincide, the Python rename dict collapses
(the later canonical target wins), so a later access to the lost canonical
name raises — e.g. for a payload whose one column matches both the numerator
and denominator predicates, `df["여성20_39"]` raises `KeyError` at the
`to_numeric` loop. Likewise, a selected label that occurs more than once in
the payload survives the selection duplicated and raises at a later step
(`to_numeric`/`to_datetime` on a 2-column frame, or the non-unique
`sort_values` label). Both raise paths are the guard below. -/
def extPre (df : Frame) : Except String (List PreRow) :=
  let cs := resolveExtCols df.cols
  match colIndexOf df.cols cs.cy, colIndexOf df.cols cs.cg,
      colIndexOf df.cols cs.cf, colIndexOf df.cols cs.ca with
  | some iy, some ig, some i2039, some i65 =>
    if cs.cy ≠ cs.cg ∧ cs.cy ≠ cs.cf ∧ cs.cy ≠ cs.ca ∧ cs.cg ≠ cs.cf ∧ cs.cg ≠ cs.ca ∧
        cs.cf ≠ cs.ca ∧ df.cols.count cs.cy = 1 ∧ df.cols.count cs.cg = 1 ∧
        df.cols.count cs.cf = 1 ∧ df.cols.count cs.ca = 1 then
      let tuples := df.rows.map (fun r =>
        (r.getD iy Cell.nan, r.getD ig Cell.nan,
          parseNumeric (r.getD i2039 Cell.nan), parseNumeric (r.getD i65 Cell.nan)))
      if tuples.all (fun t => (extRowDate t.1).isSome) then
        Except.ok (tuples.map (fun t =>
          { date := (extRowDate t.1).getD ⟨0, 0, 0⟩
            value := extIndexCell t.2.2.1 t.2.2.2
            group := t.2.1 }))
      else Except.error "ValueError: year column"
    else Except.error "KeyError: rename collision or duplicate column label"
  | _, _, _, _ => Except.error "KeyError: columns not in index"

/-- The `dropna` predicate: a pre-row is dropped when its value is not a finite
number or its group is missing (its date column never holds NaT here). -/
def keptExt (r : PreRow) : Bool :=
  (match r.value with
   | Cell.num _ => true
   | _ => false) && !(r.group == Cell.nan)

/-- Numeric content of a cell known to be a number. -/
def cellNumD : Cell → ℚ
  | Cell.num q => q
  | _ => 0

/-- Model of `out.dropna()`. -/
def dropnaExt (l : List PreRow) : List ExtRow :=
  (l.filter keptExt).map (fun r => ⟨r.date, cellNumD r.value, r.group⟩)

/-- Codepoint order on character lists (the string order used by the sort). -/
def charListLt : List Char → List Char → Bool
  | [], [] => false
  | [], _ :: _ => true
  | _ :: _, [] => false
  | a :: as, b :: bs =>
    decide (a.toNat < b.toNat) || (decide (a.toNat = b.toNat) && charListLt as bs)

/-- Sort key order of `sort_values(["group", "date"])` (any fixed order works
for the claims; only the permutation matters). -/
def extRowLe (a b : ExtRow) : Bool :=
  charListLt (cellStr a.group).toList (cellStr b.group).toList ||
    (cellStr a.group == cellStr b.group && !(dateLtB b.date a.date))

/-- Model of `compute_extinction_index(df_raw)` for a given current Seoul date `today`:
column resolution, index computation, `dropna`, sort, `remove_future_rows`
(every record's date is already a tz-aware Seoul midnight, so the filter is
the calendar comparison against today's midnight), then `metric="ext_index"`. -/
def compute_extinction_index (today : Date) (df : Frame) : Except String (List ExtRec) :=
  match extPre df with
  | Except.error e => Except.error e
  | Except.ok pre =>
    let out := dropnaExt pre
    let sorted := sortLe extRowLe out
    let kept := sorted.filter (fun r => dateLtB r.date today)
    Except.ok (kept.map (fun r => ⟨r.date, r.value, r.group, "ext_index"⟩))

/-! ### `build_closed_agg` -/

/-- A record of the closed-school aggregate table (`date, value, group`);
`value` is the count of closed-school events for that district and year. -/
structure AggRec where
  date : Date
  value : Nat
  group : Cell
deriving DecidableEq

/-- The `df.rename` step: if `target` is absent, the first column matching `p`
(if any) is renamed to `target`. -/
def renameFirst (cols : List String) (target : String) (p : String → Bool) : List String :=
  if target ∈ cols then cols
  else
    match cols.find? p with
    | some c => cols.map (fun x => if x = c then target else x)
    | none => cols

/-- Model of `pd.to_numeric(x, errors="coerce").astype("Int64")` on one cell: `none`
(raise) on a non-integral float, else the nullable integer (`some none` is
`<NA>`). -/
def int64Cell : Cell → Option (Option Int)
  | c =>
    match parseNumeric c with
    | Cell.num q => if q.den = 1 then some (some q.num) else none
    | _ => some none

/-- Sort key order of the aggregate's `sort_values(["group", "date"])`. -/
def aggRecLe (a b : AggRec) : Bool :=
  charListLt (cellStr a.group).toList (cellStr b.group).toList ||
    (cellStr a.group == cellStr b.group && !(dateLtB b.date a.date))

/-- Model of `build_closed_agg(df_raw)` for a given current Seoul date `today`: rename
a `…구`/`…연도` column to the canonical names, cast the year column to Int64,
`dropna` on (district, year), group by the (district, year) key counting rows,
build each key's January-1st Seoul timestamp, drop future rows and sort.
(The raw renamed frame also returned by the source function is presentation
passthrough and is not modeled.) -/
def build_closed_agg (today : Date) (dfRaw : Frame) : Except String (List AggRec) :=
  let cols1 := renameFirst dfRaw.cols "자치구" (fun c => substrOf "구" c)
  let cols2 := renameFirst cols1 "폐교연도" (fun c => substrOf "연도" c || substrOf "년도" c)
  match colIndexOf cols2 "폐교연도" with
  | some iy =>
    if (dfRaw.rows.map (fun r => r.getD iy Cell.nan)).all (fun c => (int64Cell c).isSome) then
      match colIndexOf cols2 "자치구" with
      | some ig =>
        let pairs := dfRaw.rows.map (fun r =>
          (r.getD ig Cell.nan, (int64Cell (r.getD iy Cell.nan)).getD none))
        let keys := (pairs.filter (fun p => !(p.1 == Cell.nan) && p.2.isSome)).map
          (fun p => (p.1, p.2.getD 0))
        let distinct := keys.dedup
        if distinct.all (fun k => decide (1678 ≤ k.2) && decide (k.2 ≤ 2262)) then
          let recs := distinct.map (fun k => AggRec.mk ⟨k.2, 1, 1⟩ (keys.count k) k.1)
          Except.ok (sortLe aggRecLe (recs.filter (fun r => dateLtB r.date today)))
        else Except.error "OutOfBoundsDatetime"
      | none => Except.error "KeyError: 자치구"
    else Except.error "TypeError: cannot safely cast to Int64"
  | none => Except.error "KeyError: 폐교연도"

/-! ### Source resolution chain (`fetch_closed_schools`, `fetch_population_components`)

The environment variables are a record of strings (empty string = unset, as
`os.environ.get(..., "")` yields). The HTTP layer (`requests.get` /
`pd.read_csv(url)` / JSON normalization) is one abstract fetch `Net` returning
either a parsed frame or a failure; every exception of an attempt is a
`Except.error` consumed by the attempt combinator, so nothing propagates. -/

/-- The environment configuration the two fetchers read. -/
structure Env where
  dataGoClosedUrl : String
  keisUrl : String
  dataGoPopUrl : String
  dataGoKey : String
  kosisKey : String

/-- The abstract network: URL to parsed tabular payload or failure. -/
def Net : Type := String → Except Unit Frame

/-- One source attempt: skipped when its URL is unset (falsy), failed when the
fetch raises; on success the post-processing is applied and the result is
tagged with the attempt's provenance label. -/
def attemptUrl (url : String) (net : Net) (post : Frame → Frame) (label : String) :
    Option (Frame × String) :=
  if url = "" then none
  else
    match net url with
    | Except.ok df => some (post df, label)
    | Except.error _ => none

/-- The `possible_sido_cols` filter: restrict to rows whose first
`시도`/`광역` column mentions `서울` (identity when no such column exists). -/
def filterSeoul (df : Frame) : Frame :=
  match df.cols.find? (fun c => substrOf "시도" c || substrOf "광역" c || substrOf "시도명" c) with
  | none => df
  | some c =>
    match colIndexOf df.cols c with
    | some i => ⟨df.cols, df.rows.filter (fun r => substrOf "서울" (cellStr (r.getD i Cell.nan)))⟩
    | none => df

/-- The built-in example closed-school dataset (the terminal fallback). -/
def closedExample : Frame :=
  ⟨["학교명", "폐교연도", "위도", "경도", "자치구"],
    [[Cell.str "구의초등학교(예시)", Cell.num 2002, Cell.num (37537 / 1000), Cell.num (127091 / 1000), Cell.str "광진구"],
     [Cell.str "서초중학교(예시)", Cell.num 2005, Cell.num (37476 / 1000), Cell.num (127014 / 1000), Cell.str "서초구"],
     [Cell.str "고척고등학교(예시)", Cell.num 2011, Cell.num (37506 / 1000), Cell.num (126861 / 1000), Cell.str "구로구"],
     [Cell.str "홍제초(예시)", Cell.num 2008, Cell.num (37590 / 1000), Cell.num (126945 / 1000), Cell.str "서대문구"],
     [Cell.str "한강초(예시)", Cell.num 2015, Cell.num (37528 / 1000), Cell.num (126932 / 1000), Cell.str "영등포구"],
     [Cell.str "잠신초(예시)", Cell.num 2016, Cell.num (37513 / 1000), Cell.num (127095 / 1000), Cell.str "송파구"]]⟩

/-- Model of `fetch_closed_schools`: the data.go.kr attempt, then KEIS attempt, then the
built-in example labeled `"내장 예시"`. (The constant collection-date string
also returned by the source is display metadata and not modeled.) -/
def fetch_closed_schools (env : Env) (net : Net) : Frame × String :=
  match attemptUrl env.dataGoClosedUrl net filterSeoul "data.go.kr(공식)" with
  | some r => r
  | none =>
    match attemptUrl env.keisUrl net filterSeoul "KEIS/교육부(공식)" with
    | some r => r
    | none => (closedExample, "내장 예시")

/-- The 25 Seoul districts of the synthetic population generator. -/
def seoulGus : List String :=
  ["종로구", "중구", "용산구", "성동구", "광진구", "동대문구", "중랑구", "성북구", "강북구", "도봉구",
   "노원구", "은평구", "서대문구", "마포구", "양천구", "강서구", "구로구", "금천구", "영등포구", "동작구",
   "관악구", "서초구", "강남구", "송파구", "강동구"]

/-- Model of `range(2010, TODAY.year + 1)`. -/
def popYears (today : Date) : List Int :=
  (List.range (today.y + 1 - 2010).toNat).map (fun (i : Nat) => 2010 + (i : Int))

/-- One synthetic population row for year `y` and district `g`; the three
seeded-rng draws (female 20-39, aged 65+, total) are abstracted as `draw`. -/
def popRow (draw : Int → String → ℚ × ℚ × ℚ) (y : Int) (g : String) : List Cell :=
  [Cell.num (y : ℚ), Cell.str g, Cell.num (draw y g).1,
    Cell.num (draw y g).2.1, Cell.num (draw y g).2.2]

/-- The synthetic population dataset: one row per (year in 2010..today, district). -/
def syntheticPop (today : Date) (draw : Int → String → ℚ × ℚ × ℚ) : Frame :=
  ⟨["연도", "자치구", "여성20_39", "고령65_이상", "총인구"],
    (popYears today).flatMap (fun y => seoulGus.map (popRow draw y))⟩

/-- Model of `fetch_population_components`: the KOSIS branch of the source is a
no-op (`try: pass`) and never returns, then the data.go.kr attempt, then the
synthetic generator labeled `"내장 예시"`. -/
def fetch_population_components (today : Date) (env : Env) (net : Net)
    (draw : Int → String → ℚ × ℚ × ℚ) : Frame × String :=
  match attemptUrl env.dataGoPopUrl net id "data.go.kr(공식)" with
  | some r => r
  | none => (syntheticPop today draw, "내장 예시")

/-! ### `feature_centroid` -/

/-- A GeoJSON-ish value. -/
inductive Json where
  | null
  | bool (b : Bool)
  | num (q : ℚ)
  | str (s : String)
  | arr (items : List Json)
  | obj (fields : List (String × Json))

/-- Python `d.get(k, dflt)`: raises (`error`) when the receiver is not a dict. -/
def jGet (j : Json) (k : String) (dflt : Json) : Except Unit Json :=
  match j with
  | Json.obj fields => Except.ok (((fields.find? (fun p => p.1 == k)).map Prod.snd).getD dflt)
  | _ => Except.error ()

/-- Bool test `j == "s"` in Python (false for any non-string value). -/
def jIsStr (j : Json) (s : String) : Bool :=
  match j with
  | Json.str t => t == s
  | _ => false

/-- Python's `float(x)` on a JSON value; booleans coerce, unparsable values raise. -/
def jFloat : Json → Except Unit ℚ
  | Json.num q => Except.ok q
  | Json.str s =>
    match parseRatChars s.toList with
    | some q => Except.ok q
    | none => Except.error ()
  | Json.bool b => Except.ok (if b then 1 else 0)
  | _ => Except.error ()

/-- The `for (x, y) in crds` unpacking of one coordinate: exactly two
elements, each convertible to float. -/
def jPoint : Json → Except Unit (ℚ × ℚ)
  | Json.arr [x, y] => do
    let a ← jFloat x
    let b ← jFloat y
    Except.ok (a, b)
  | _ => Except.error ()

/-- Model of `add_coords(ring)`: every element of a coordinate ring. -/
def jRing : Json → Except Unit (List (ℚ × ℚ))
  | Json.arr pts => pts.mapM jPoint
  | _ => Except.error ()

/-- All coordinates of a Polygon's ring list. -/
def jRings : Json → Except Unit (List (ℚ × ℚ))
  | Json.arr rings => do
    let l ← rings.mapM jRing
    Except.ok l.flatten
  | _ => Except.error ()

/-- All coordinates of a MultiPolygon's polygon list. -/
def jPolys : Json → Except Unit (List (ℚ × ℚ))
  | Json.arr polys => do
    let l ← polys.mapM jRings
    Except.ok l.flatten
  | _ => Except.error ()

/-- The coordinate gathering of `feature_centroid`: geometry, type and
coordinates lookups, then every boundary-ring vertex for a
Polygon/MultiPolygon and no vertex at all for any other type; `error` is any
Python exception on malformed input (caught by the caller). -/
def collectCoords (feature : Json) : Except Unit (List (ℚ × ℚ)) :=
  match jGet feature "geometry" (Json.obj []) with
  | Except.error e => Except.error e
  | Except.ok geom =>
    match jGet geom "type" (Json.str "") with
    | Except.error e => Except.error e
    | Except.ok gtype =>
      match jGet geom "coordinates" (Json.arr []) with
      | Except.error e => Except.error e
      | Except.ok coords =>
        if jIsStr gtype "Polygon" then jRings coords
        else if jIsStr gtype "MultiPolygon" then jPolys coords
        else Except.ok []

/-- Model of `feature_centroid`: `None` when any exception was raised or no coordinate
was collected (`n == 0`), else the unweighted mean of all collected
coordinates. -/
def feature_centroid (feature : Json) : Option (ℚ × ℚ) :=
  match collectCoords feature with
  | Except.error _ => none
  | Except.ok [] => none
  | Except.ok pts =>
    some ((pts.map Prod.fst).sum / (pts.length : ℚ), (pts.map Prod.snd).sum / (pts.length : ℚ))

/-! ### CSV export (`to_csv(index=False).encode("utf-8-sig")`) -/

/-- Zero-padded two-digit rendering of a month/day field. -/
def pad2 (n : Int) : String :=
  if 0 ≤ n ∧ n < 10 then "0" ++ toString n else toString n

/-- How a tz-aware Seoul midnight timestamp prints in the CSV. -/
def renderDate (d : Date) : String :=
  toString d.y ++ "-" ++ pad2 d.m ++ "-" ++ pad2 d.d ++ " 00:00:00+09:00"

/-- Float rendering of a value cell (the decimal form of Python's float repr
is abstracted; the claims are about the column structure, not cell text). -/
def renderQ (q : ℚ) : String :=
  if q.den = 1 then toString q.num ++ ".0" else toString q

/-- The lines of `closed_long.to_csv(index=False)`: one header row naming the
columns in frame order, then one comma-joined line per record. -/
def closedCsvLines (l : List AggRec) : List String :=
  "date,value,group" ::
    l.map (fun r => String.intercalate "," [renderDate r.date, toString r.value, cellStr r.group])

/-- The lines of `ext_long.to_csv(index=False)`. -/
def extCsvLines (l : List ExtRec) : List String :=
  "date,value,group,metric" ::
    l.map (fun r =>
      String.intercalate "," [renderDate r.date, renderQ r.value, cellStr r.group, r.metric])

/-- The `to_csv` output text: every line is newline-terminated. -/
def csvText (lines : List String) : String := String.join (lines.map (· ++ "\n"))

/-- UTF-8 bytes of a string. -/
def utf8Bytes (s : String) : List Nat := s.toUTF8.toList.map (fun b => b.toNat)

/-- Model of `str.encode("utf-8-sig")`: the UTF-8 byte-order mark then the UTF-8 bytes. -/
def encodeUtf8Sig (s : String) : List Nat := 239 :: 187 :: 191 :: utf8Bytes s

/-- The exported closed-school aggregate CSV bytes. -/
def closedCsvExport (l : List AggRec) : List Nat := encodeUtf8Sig (csvText (closedCsvLines l))

/-- The exported extinction-index CSV bytes. -/
def extCsvExport (l : List ExtRec) : List Nat := encodeUtf8Sig (csvText (extCsvLines l))

/-! ## Claim theorems -/

/-- Claim C2: a record appears in the output of `remove_future_rows` iff its
timestamp, normalized to Asia/Seoul (naive timestamps localized, tz-aware
ones converted), is strictly before the start of the current day in
Asia/Seoul — regardless of the series' original timezone annotation. -/
theorem claim2_temporal_filter :
    ∀ (α : Type) (seriesTz : Option Int) (nowSeoulWall : Int)
      (rows : List (Int × α)) (w : Int) (a : α),
      (w, a) ∈ remove_future_rows seriesTz nowSeoulWall rows ↔
        (w < seoul_midnight_today nowSeoulWall ∧
          ∃ w0, (w0, a) ∈ rows ∧ w = toSeoulWallMin seriesTz w0) := by
  intro α tz now rows w a
  simp only [remove_future_rows, List.mem_filter, List.mem_map, decide_eq_true_eq]
  constructor
  · rintro ⟨⟨⟨w0, a0⟩, hmem, heq⟩, hlt⟩
    obtain ⟨rfl, rfl⟩ : toSeoulWallMin tz w0 = w ∧ a0 = a :=
      ⟨congrArg Prod.fst heq, congrArg Prod.snd heq⟩
    exact ⟨hlt, w0, hmem, rfl⟩
  · rintro ⟨hlt, w0, hmem, rfl⟩
    exact ⟨⟨(w0, a), hmem, rfl⟩, hlt⟩

/-- Claim C6: smoothing with window `1` — or `None`, or any window below 1 —
returns the series exactly unchanged. -/
theorem claim6_smoothing_identity :
    (∀ s : List (Option ℚ), moving_average none s = s) ∧
    ∀ (n : Int) (s : List (Option ℚ)), n ≤ 1 → moving_average (some n) s = s := by
  refine ⟨fun s => rfl, fun n s h => ?_⟩
  simp [moving_average, if_pos h]

/-- Witness for C6 at window 1 on a concrete series. -/
theorem claim6_smoothing_identity_witness :
    (1 : Int) ≤ 1 ∧ moving_average (some 1) [some 5, none] = [some 5, none] :=
  ⟨by decide, claim6_smoothing_identity.2 1 [some 5, none] (by decide)⟩

/-- Counterexample to claim C7: with the configured window 5 (min_periods
`max(1, 5 // 2) = 2`) the first position of a non-empty series gets a gap
(`NaN`), not a defined smoothed value. -/
theorem claim7_counterexample_first_position_gap :
    (moving_average (some 5) [some 1, some 2]).getD 0 (some 0) = none ∧
    (moving_average (some 5) [some 1, some 2]).length = 2 := by
  exact ⟨by decide, by decide⟩

/-- Claim C7 as amended: for a window `w > 1` over a series with no missing
values, position `i` receives a defined smoothed value iff its trailing
window holds at least `max 1 (w / 2)` observations, i.e. iff
`max 1 (w / 2) ≤ i + 1`; earlier positions are gaps (so for the configured
window 3 every position is defined, but for window 5 the first position
is not). -/
theorem claim7_amended_min_periods :
    ∀ (w : Int), 2 ≤ w → ∀ (s : List ℚ) (i : Nat), i < s.length →
      (((moving_average (some w) (s.map some)).getD i none).isSome = true ↔
        max 1 (w.toNat / 2) ≤ i + 1) := by
  intro w hw s i hi
  have hw1 : ¬ w ≤ 1 := by omega
  have hw2 : 2 ≤ w.toNat := by omega
  have hgd : (moving_average (some w) (s.map some)).getD i none
      = rollingMeanAt w.toNat (max 1 (w.toNat / 2)) (s.map some) i := by
    simp only [moving_average, if_neg hw1, List.length_map]
    rw [List.getD_eq_getElem?_getD, List.getElem?_map, List.getElem?_range hi]
    rfl
  rw [hgd]
  have hvals : (((s.map some).take (i + 1)).drop (i + 1 - w.toNat)).filterMap id
      = (s.take (i + 1)).drop (i + 1 - w.toNat) := by
    rw [← List.map_take, ← List.map_drop]
    induction (s.take (i + 1)).drop (i + 1 - w.toNat) with
    | nil => rfl
    | cons a t ih => simp [ih]
  have hlen : ((s.take (i + 1)).drop (i + 1 - w.toNat)).length
      = (i + 1) - ((i + 1) - w.toNat) := by
    simp only [List.length_drop, List.length_take]
    omega
  simp only [rollingMeanAt, hvals]
  by_cases h : max 1 (w.toNat / 2) ≤ ((s.take (i + 1)).drop (i + 1 - w.toNat)).length
  · rw [if_pos h]
    simp only [Option.isSome_some, true_iff]
    omega
  · rw [if_neg h]
    simp only [Option.isSome_none, Bool.false_eq_true, false_iff]
    omega

/-- Witness for the amended C7 at window 5, position 0 of a 2-element series. -/
theorem claim7_amended_witness :
    (2 : Int) ≤ 5 ∧ 0 < ([1, 2] : List ℚ).length ∧
      (((moving_average (some 5) (([1, 2] : List ℚ).map some)).getD 0 none).isSome = true ↔
        max 1 ((5 : Int).toNat / 2) ≤ 0 + 1) :=
  ⟨by decide, by decide, claim7_amended_min_periods 5 (by decide) [1, 2] 0 (by decide)⟩

/-- Counterexample to claim C9: the exported CSV's columns are
`date,value,group[,metric]`, not `date,group,value[,metric]` — shown on the
header line of the export of an empty record sequence. -/
theorem claim9_counterexample_column_order :
    closedCsvLines [] = ["date,value,group"] ∧
    extCsvLines [] = ["date,value,group,metric"] ∧
    "date,value,group" ≠ "date,group,value" ∧
    "date,value,group,metric" ≠ "date,group,value,metric" :=
  ⟨rfl, rfl, by decide, by decide⟩

/-- Claim C9 as amended: every exported CSV is UTF-8 prefixed with the
byte-order mark, has exactly one header row, is comma-separated, and its
columns are exactly `date, value, group` (plus `metric` last for the
extinction-index table), in that order. -/
theorem claim9_amended_csv_format :
    ∀ (a : List AggRec) (e : List ExtRec),
      closedCsvExport a = 239 :: 187 :: 191 :: utf8Bytes (csvText (closedCsvLines a)) ∧
      (closedCsvLines a).head? = some "date,value,group" ∧
      (closedCsvLines a).length = a.length + 1 ∧
      (closedCsvLines a).tail =
        a.map (fun r =>
          String.intercalate "," [renderDate r.date, toString r.value, cellStr r.group]) ∧
      extCsvExport e = 239 :: 187 :: 191 :: utf8Bytes (csvText (extCsvLines e)) ∧
      (extCsvLines e).head? = some "date,value,group,metric" ∧
      (extCsvLines e).length = e.length + 1 ∧
      (extCsvLines e).tail =
        e.map (fun r =>
          String.intercalate "," [renderDate r.date, renderQ r.value, cellStr r.group, r.metric]) := by
  intro a e
  refine ⟨rfl, rfl, by simp [closedCsvLines], rfl, rfl, rfl, by simp [extCsvLines], rfl⟩

/-- Claim C10: `feature_centroid` returns `None` — never raising and never
dividing by zero — whenever the geometry's type is not Polygon/MultiPolygon,
whenever no coordinate is collected, and whenever the input is malformed
(any modeled exception); and when it returns a pair, that pair is exactly
the unweighted arithmetic mean of all boundary-ring coordinates. -/
theorem claim10_centroid (feature : Json) :
    (∀ g t, jGet feature "geometry" (Json.obj []) = Except.ok g →
        jGet g "type" (Json.str "") = Except.ok t →
        jIsStr t "Polygon" = false → jIsStr t "MultiPolygon" = false →
        feature_centroid feature = none) ∧
    (collectCoords feature = Except.ok [] → feature_centroid feature = none) ∧
    (collectCoords feature = Except.error () → feature_centroid feature = none) ∧
    (∀ x y, feature_centroid feature = some (x, y) →
      ∃ pts, collectCoords feature = Except.ok pts ∧ pts ≠ [] ∧
        x = (pts.map Prod.fst).sum / (pts.length : ℚ) ∧
        y = (pts.map Prod.snd).sum / (pts.length : ℚ)) := by
  refine ⟨?_, ?_, ?_, ?_⟩
  · intro g t hg ht hp hm
    have hcc : collectCoords feature = Except.ok [] := by
      cases g with
      | obj fields =>
        simp only [collectCoords, hg, ht]
        simp [jGet, hp, hm]
      | null => simp [jGet] at ht
      | bool b => simp [jGet] at ht
      | num q => simp [jGet] at ht
      | str s => simp [jGet] at ht
      | arr l => simp [jGet] at ht
    simp [feature_centroid, hcc]
  · intro h
    simp [feature_centroid, h]
  · intro h
    simp [feature_centroid, h]
  · intro x y h
    cases hcc : collectCoords feature with
    | error e => simp [feature_centroid, hcc] at h
    | ok pts =>
      cases pts with
      | nil => simp [feature_centroid, hcc] at h
      | cons p ts =>
        simp only [feature_centroid, hcc, Option.some.injEq, Prod.mk.injEq] at h
        exact ⟨p :: ts, rfl, by simp, h.1.symm, h.2.symm⟩

/-- Witness for C10 on a feature with no geometry at all. -/
theorem claim10_centroid_witness :
    feature_centroid (Json.obj []) = none :=
  (claim10_centroid (Json.obj [])).1 (Json.obj []) (Json.str "") rfl rfl rfl rfl

/-- A source attempt falls through when its URL is unset or its fetch fails. -/
theorem attemptUrl_none (url : String) (net : Net) (post : Frame → Frame) (label : String)
    (h : url = "" ∨ net url = Except.error ()) :
    attemptUrl url net post label = none := by
  rcases h with h | h
  · simp [attemptUrl, h]
  · by_cases hu : url = ""
    · simp [attemptUrl, hu]
    · simp only [attemptUrl, if_neg hu, h]

/-- Every year of the requested range appears in `popYears`. -/
theorem mem_popYears (today : Date) (y : Int) (h1 : 2010 ≤ y) (h2 : y ≤ today.y) :
    y ∈ popYears today := by
  have hmem : (y - 2010).toNat ∈ List.range (today.y + 1 - 2010).toNat :=
    List.mem_range.mpr (by omega)
  rw [popYears, show y = 2010 + ((y - 2010).toNat : Int) by omega]
  exact List.mem_map_of_mem _ hmem

/-- Claim C1: with every real source attempt lacking its URL configuration or
failing on the network, both fetchers return — no exception escapes the
chain, which is total by construction — the built-in example dataset labeled
`"내장 예시"` (the synthetic-example provenance); the payloads are non-empty
and structurally valid (every row matches the column list), and the synthetic
population payload covers the full requested year range 2010..today for every
district. -/
theorem claim1_source_chain_totality
    (env : Env) (net : Net) (today : Date) (draw : Int → String → ℚ × ℚ × ℚ)
    (h1 : env.dataGoClosedUrl = "" ∨ net env.dataGoClosedUrl = Except.error ())
    (h2 : env.keisUrl = "" ∨ net env.keisUrl = Except.error ())
    (h3 : env.dataGoPopUrl = "" ∨ net env.dataGoPopUrl = Except.error ())
    (hy : 2010 ≤ today.y) :
    fetch_closed_schools env net = (closedExample, "내장 예시") ∧
    closedExample.rows.length = 6 ∧
    (∀ r ∈ closedExample.rows, r.length = closedExample.cols.length) ∧
    fetch_population_components today env net draw = (syntheticPop today draw, "내장 예시") ∧
    (syntheticPop today draw).rows ≠ [] ∧
    (∀ r ∈ (syntheticPop today draw).rows, r.length = (syntheticPop today draw).cols.length) ∧
    (∀ y : Int, 2010 ≤ y → y ≤ today.y → ∀ g ∈ seoulGus,
      popRow draw y g ∈ (syntheticPop today draw).rows) := by
  have hrow : ∀ y g, popRow draw y g ∈ (syntheticPop today draw).rows →
      True := fun _ _ _ => trivial
  refine ⟨?_, rfl, ?_, ?_, ?_, ?_, ?_⟩
  · simp [fetch_closed_schools,
      attemptUrl_none _ _ _ _ h1, attemptUrl_none _ _ _ _ h2]
  · decide
  · simp [fetch_population_components, attemptUrl_none _ _ _ _ h3]
  · have hmem : popRow draw 2010 "종로구" ∈ (syntheticPop today draw).rows :=
      List.mem_flatMap.mpr ⟨2010, mem_popYears today 2010 le_rfl hy,
        List.mem_map.mpr ⟨"종로구", by decide, rfl⟩⟩
    exact List.ne_nil_of_mem hmem
  · intro r hr
    obtain ⟨y, _, hr⟩ := List.mem_flatMap.mp hr
    obtain ⟨g, _, rfl⟩ := List.mem_map.mp hr
    rfl
  · intro y hy1 hy2 g hg
    exact List.mem_flatMap.mpr ⟨y, mem_popYears today y hy1 hy2, List.mem_map.mpr ⟨g, hg, rfl⟩⟩

/-- The unset environment of the C1 witness. -/
def envNone : Env := ⟨"", "", "", "", ""⟩

/-- The fully failing network of the C1 witness. -/
def netDown : Net := fun _ => Except.error ()

/-- A fixed rng-draw stream for the C1 witness. -/
def drawConst : Int → String → ℚ × ℚ × ℚ := fun _ _ => (1, 2, 3)

/-- The reference "today" used by the concrete witnesses. -/
def todayRef : Date := ⟨2026, 10, 12⟩

/-- Witness for C1: no credentials, no network. -/
theorem claim1_source_chain_totality_witness :
    fetch_closed_schools envNone netDown = (closedExample, "내장 예시") ∧
    closedExample.rows.length = 6 ∧
    (∀ r ∈ closedExample.rows, r.length = closedExample.cols.length) ∧
    fetch_population_components todayRef envNone netDown drawConst =
      (syntheticPop todayRef drawConst, "내장 예시") ∧
    (syntheticPop todayRef drawConst).rows ≠ [] ∧
    (∀ r ∈ (syntheticPop todayRef drawConst).rows,
      r.length = (syntheticPop todayRef drawConst).cols.length) ∧
    (∀ y : Int, 2010 ≤ y → y ≤ todayRef.y → ∀ g ∈ seoulGus,
      popRow drawConst y g ∈ (syntheticPop todayRef drawConst).rows) :=
  claim1_source_chain_totality envNone netDown todayRef drawConst
    (Or.inl rfl) (Or.inl rfl) (Or.inl rfl) (by decide)

/-! ### Shared concrete inputs and evaluation lemmas for the pipeline claims -/

/-- The spec's scenario raw row `{연도: 2024, 자치구: 종로구, 여성20_39: 10000, 고령65_이상: 20000}`. -/
def scenarioRow : List Cell :=
  [Cell.num 2024, Cell.str "종로구", Cell.num 10000, Cell.num 20000]

/-- The spec's scenario raw frame. -/
def scenarioDf : Frame := ⟨["연도", "자치구", "여성20_39", "고령65_이상"], [scenarioRow]⟩

/-- The scenario frame with its single row duplicated. -/
def dupDf : Frame := ⟨["연도", "자치구", "여성20_39", "고령65_이상"], [scenarioRow, scenarioRow]⟩

/-- The pre-`dropna` row the scenario produces. -/
def pre50 : PreRow := ⟨⟨2024, 1, 1⟩, Cell.num 50, Cell.str "종로구"⟩

/-- The post-`dropna` row the scenario produces. -/
def row50 : ExtRow := ⟨⟨2024, 1, 1⟩, 50, Cell.str "종로구"⟩

/-- The final record the scenario produces. -/
def recJongno : ExtRec := ⟨⟨2024, 1, 1⟩, 50, Cell.str "종로구", "ext_index"⟩

theorem extIndexCell_scenario :
    extIndexCell (Cell.num 10000) (Cell.num 20000) = Cell.num 50 := by
  simp only [extIndexCell, cellDiv]
  rw [if_neg (by norm_num : ¬ ((20000 : ℚ)) = 0)]
  simp only [replaceInfNan]
  norm_num

theorem extPre_scenarioDf : extPre scenarioDf = Except.ok [pre50] := by
  have h : extPre scenarioDf = Except.ok
      [⟨⟨2024, 1, 1⟩, extIndexCell (Cell.num 10000) (Cell.num 20000), Cell.str "종로구"⟩] := rfl
  rw [h, extIndexCell_scenario]
  rfl

theorem extPre_dupDf : extPre dupDf = Except.ok [pre50, pre50] := by
  have h : extPre dupDf = Except.ok
      [⟨⟨2024, 1, 1⟩, extIndexCell (Cell.num 10000) (Cell.num 20000), Cell.str "종로구"⟩,
       ⟨⟨2024, 1, 1⟩, extIndexCell (Cell.num 10000) (Cell.num 20000), Cell.str "종로구"⟩] := rfl
  rw [h, extIndexCell_scenario]
  rfl

theorem compute_scenario_eval (today : Date) (h : dateLtB ⟨2024, 1, 1⟩ today = true) :
    compute_extinction_index today scenarioDf = Except.ok [recJongno] := by
  simp only [compute_extinction_index, extPre_scenarioDf]
  have hsort : sortLe extRowLe (dropnaExt [pre50]) = [row50] := rfl
  rw [hsort]
  simp only [List.filter, row50, h]
  rfl

/-- In every successful `extPre` output, each row's value is the derived index
of that row's two parsed count cells. -/
theorem extPre_shape (df : Frame) (pre : List PreRow) (hpre : extPre df = Except.ok pre) :
    ∀ p ∈ pre, ∃ f a, p.value = extIndexCell f a := by
  simp only [extPre] at hpre
  split at hpre
  · split at hpre
    · split at hpre
      · obtain hl := Except.ok.inj hpre
        subst hl
        intro p hp
        obtain ⟨t, _, rfl⟩ := List.mem_map.mp hp
        exact ⟨_, _, rfl⟩
      · simp at hpre
    · simp at hpre
  · simp at hpre

/-- The search `findIdx?` finds an index whenever a satisfying element is present,
whatever the start offset. -/
theorem findIdx?_isSome_of_mem {α : Type} (p : α → Bool) :
    ∀ (l : List α) (i : Nat), (∃ x, x ∈ l ∧ p x = true) →
      (List.findIdx? p l i).isSome = true := by
  intro l
  induction l with
  | nil =>
    intro i hex
    obtain ⟨x, hx, _⟩ := hex
    cases hx
  | cons a t ih =>
    intro i hex
    obtain ⟨x, hx, hp⟩ := hex
    rw [List.findIdx?_cons]
    by_cases hpa : p a = true
    · rw [if_pos hpa]
      rfl
    · rw [if_neg hpa]
      rcases List.mem_cons.mp hx with h | h
      · subst h
        exact absurd hp hpa
      · exact ih (i + 1) ⟨x, h, hp⟩

/-- A column name that is present in the frame is found by the selection. -/
theorem colIndexOf_isSome (cols : List String) (c : String) (h : c ∈ cols) :
    (colIndexOf cols c).isSome = true :=
  findIdx?_isSome_of_mem (· == c) cols 0 ⟨c, h, by simp⟩

/-! ### Claims C3, C4, C5, C8 -/

/-- Claim C3: the derived index with denominator 0 is NaN ("undefined", not
zero and not an error) for every numerator, and every record of the
calculator's output sequence carries a finite value produced by the index
formula — rows whose ratio was undefined or ±infinity were dropped and are
absent from the output (hence from all downstream aggregates and means). -/
theorem claim3_zero_denominator :
    (∀ q : ℚ, extIndexCell (Cell.num q) (Cell.num 0) = Cell.nan) ∧
    (∀ (today : Date) (df : Frame) (l : List ExtRec) (r : ExtRec),
      compute_extinction_index today df = Except.ok l → r ∈ l →
      ∃ pre p, extPre df = Except.ok pre ∧ p ∈ pre ∧ p.value = Cell.num r.value ∧
        ∃ f a, p.value = extIndexCell f a) := by
  constructor
  · intro q
    rcases lt_trichotomy q 0 with h | h | h
    · have h1 : ¬ (0 : ℚ) < q := not_lt.mpr h.le
      simp [extIndexCell, cellDiv, replaceInfNan, h1, h]
    · subst h
      simp [extIndexCell, cellDiv, replaceInfNan]
    · have h2 : ¬ q < 0 := not_lt.mpr h.le
      simp [extIndexCell, cellDiv, replaceInfNan, h, h2]
  · intro today df l r hok hr
    cases hpre : extPre df with
    | error e =>
      simp only [compute_extinction_index, hpre] at hok
      exact Except.noConfusion hok
    | ok pre =>
      simp only [compute_extinction_index, hpre] at hok
      obtain hl := Except.ok.inj hok
      subst hl
      obtain ⟨r0, hr0, rfl⟩ := List.mem_map.mp hr
      have hr1 : r0 ∈ sortLe extRowLe (dropnaExt pre) := (List.mem_filter.mp hr0).1
      have hr2 : r0 ∈ dropnaExt pre := (mem_sortLe _ _ _).mp hr1
      simp only [dropnaExt] at hr2
      obtain ⟨p, hp, rfl⟩ := List.mem_map.mp hr2
      have hpmem : p ∈ pre := (List.mem_filter.mp hp).1
      have hkept : keptExt p = true := (List.mem_filter.mp hp).2
      refine ⟨pre, p, rfl, hpmem, ?_, extPre_shape df pre hpre p hpmem⟩
      cases hv : p.value with
      | num q => simp [cellNumD, hv]
      | str s => rw [keptExt, hv] at hkept; simp at hkept
      | nan => rw [keptExt, hv] at hkept; simp at hkept

/-- Witness for C3 on the scenario input: the surviving record's value comes
from a defined (finite) index computation. -/
theorem claim3_zero_denominator_witness :
    compute_extinction_index todayRef scenarioDf = Except.ok [recJongno] ∧
    (∃ pre p, extPre scenarioDf = Except.ok pre ∧ p ∈ pre ∧
      p.value = Cell.num recJongno.value ∧ ∃ f a, p.value = extIndexCell f a) :=
  ⟨compute_scenario_eval todayRef (by decide),
    claim3_zero_denominator.2 todayRef scenarioDf [recJongno] recJongno
      (compute_scenario_eval todayRef (by decide)) (by simp)⟩

/-- Counterexample to claim C4: duplicated raw (year, district) rows pass
through `compute_extinction_index` unmerged, so the extinction-index long
table can contain two records sharing the same (date, group, metric) key. -/
theorem claim4_counterexample_duplicate_keys :
    compute_extinction_index todayRef dupDf = Except.ok [recJongno, recJongno] ∧
    ¬ ([recJongno, recJongno].Pairwise
        (fun a b => ¬(a.date = b.date ∧ a.group = b.group ∧ a.metric = b.metric))) := by
  constructor
  · simp only [compute_extinction_index, extPre_dupDf]
    have hsort : sortLe extRowLe (dropnaExt [pre50, pre50]) = [row50, row50] := rfl
    rw [hsort]
    have hd : dateLtB (⟨2024, 1, 1⟩ : Date) todayRef = true := by decide
    simp only [List.filter, row50, hd]
    rfl
  · decide

/-- Distinct (district, year) keys give pairwise-distinct (date, group)
record keys after the groupby-size step. -/
theorem pairwise_key_map (keys : List (Cell × Int)) :
    (keys.dedup.map (fun k => AggRec.mk ⟨k.2, 1, 1⟩ (keys.count k) k.1)).Pairwise
      (fun a b => ¬(a.date = b.date ∧ a.group = b.group)) := by
  have hnd : keys.dedup.Nodup := List.nodup_dedup keys
  refine List.Pairwise.map _ ?_ hnd
  intro a b hab h
  obtain ⟨hd, hg⟩ := h
  exact hab (Prod.ext hg (congrArg Date.y hd))

/-- Claim C4 as amended: the closed-school aggregate always has
pairwise-distinct (date, group) keys (the groupby collapses duplicates); the
extinction-index long table has pairwise-distinct (date, group, metric) keys
provided the normalized input rows' (date, group) keys are pairwise distinct
(the calculator itself never merges duplicates). -/
theorem claim4_amended_key_uniqueness :
    (∀ (today : Date) (df : Frame) (l : List AggRec),
      build_closed_agg today df = Except.ok l →
      l.Pairwise (fun a b => ¬(a.date = b.date ∧ a.group = b.group))) ∧
    (∀ (today : Date) (df : Frame) (pre : List PreRow) (l : List ExtRec),
      extPre df = Except.ok pre →
      pre.Pairwise (fun a b => ¬(a.date = b.date ∧ a.group = b.group)) →
      compute_extinction_index today df = Except.ok l →
      l.Pairwise (fun a b => ¬(a.date = b.date ∧ a.group = b.group ∧ a.metric = b.metric))) := by
  constructor
  · intro today df l hok
    simp only [build_closed_agg] at hok
    split at hok
    · split at hok
      · split at hok
        · split at hok
          · obtain hl := Except.ok.inj hok
            subst hl
            refine ((sortLe_perm aggRecLe _).pairwise_iff ?_).mpr ?_
            · intro x y hxy h
              exact hxy ⟨h.1.symm, h.2.symm⟩
            · exact (pairwise_key_map _).filter _
          · simp at hok
        · simp at hok
      · simp at hok
    · simp at hok
  · intro today df pre l hpre hpw hok
    simp only [compute_extinction_index, hpre] at hok
    obtain hl := Except.ok.inj hok
    subst hl
    have h1 : (dropnaExt pre).Pairwise
        (fun a b : ExtRow => ¬(a.date = b.date ∧ a.group = b.group)) := by
      simp only [dropnaExt]
      refine List.Pairwise.map _ ?_ (hpw.filter keptExt)
      intro a b hab h
      exact hab ⟨h.1, h.2⟩
    have h2 : (sortLe extRowLe (dropnaExt pre)).Pairwise
        (fun a b : ExtRow => ¬(a.date = b.date ∧ a.group = b.group)) := by
      refine ((sortLe_perm extRowLe _).pairwise_iff ?_).mpr h1
      intro x y hxy h
      exact hxy ⟨h.1.symm, h.2.symm⟩
    refine List.Pairwise.map _ ?_ (h2.filter _)
    intro a b hab h
    exact hab ⟨h.1, h.2.1⟩

/-- The one-row closed-school frame of the C4 witness. -/
def closedWDf : Frame := ⟨["자치구", "폐교연도"], [[Cell.str "광진구", Cell.num 2002]]⟩

/-- A population frame whose single ratio is 0/0 (dropped by `dropna`). -/
def zeroDf : Frame :=
  ⟨["연도", "자치구", "여성20_39", "고령65_이상"],
    [[Cell.num 2024, Cell.str "종로구", Cell.num 0, Cell.num 0]]⟩

/-- The pre-row `zeroDf` produces (an undefined 0/0 ratio). -/
def preZero : PreRow := ⟨⟨2024, 1, 1⟩, Cell.nan, Cell.str "종로구"⟩

/-- Witness for the amended C4 on concrete frames. -/
theorem claim4_amended_key_uniqueness_witness :
    ([(⟨⟨2002, 1, 1⟩, 1, Cell.str "광진구"⟩ : AggRec)].Pairwise
      (fun a b => ¬(a.date = b.date ∧ a.group = b.group))) ∧
    (([] : List ExtRec).Pairwise
      (fun a b => ¬(a.date = b.date ∧ a.group = b.group ∧ a.metric = b.metric))) :=
  ⟨claim4_amended_key_uniqueness.1 todayRef closedWDf
      [⟨⟨2002, 1, 1⟩, 1, Cell.str "광진구"⟩] rfl,
    claim4_amended_key_uniqueness.2 todayRef zeroDf [preZero] [] rfl (by simp) rfl⟩

/-- The raw frame of the C5 counterexample: no recognizable column at all. -/
def fooDf : Frame := ⟨["foo"], [[Cell.num 1]]⟩

/-- A payload whose one count column matches both the numerator predicate
(it contains `여성20`) and the denominator predicate (it contains `65` and
`이상`): the source's rename dict collapses and `df["여성20_39"]` raises
`KeyError` at the `to_numeric` loop. -/
def collideDf : Frame :=
  ⟨["연도", "자치구", "여성2065이상"], [[Cell.num 2024, Cell.str "종로구", Cell.num 10000]]⟩

/-- Counterexample to claim C5: the schema normalizer can raise instead of
returning a record sequence — on a payload with none of the searched or
default columns (the pandas column selection `df[[...]]` raises `KeyError`),
and on a payload whose one column is selected as both numerator and
denominator (the collapsed rename loses `여성20_39` and the `to_numeric`
access raises `KeyError`). -/
theorem claim5_counterexample_keyerror :
    compute_extinction_index todayRef fooDf =
      Except.error "KeyError: columns not in index" ∧
    compute_extinction_index todayRef collideDf =
      Except.error "KeyError: rename collision or duplicate column label" :=
  ⟨rfl, rfl⟩

/-- Claim C5 as amended: the normalizer identifies the four columns by
keyword search and falls back to the fixed default names, and it returns a
record sequence without raising provided the four selected (matched or
default) column names all exist in the payload, are pairwise distinct, each
occurs exactly once, and every year cell converts to an in-range year; it
raises when a selected column is missing, when two of the four searches
select the same column or a selected label is duplicated (the collapsed
rename loses a canonical name that a later step accesses), or when a year
cell does not convert. -/
theorem claim5_amended_no_raise :
    ∀ (today : Date) (df : Frame),
      (resolveExtCols df.cols).cy ∈ df.cols →
      (resolveExtCols df.cols).cg ∈ df.cols →
      (resolveExtCols df.cols).cf ∈ df.cols →
      (resolveExtCols df.cols).ca ∈ df.cols →
      ((resolveExtCols df.cols).cy ≠ (resolveExtCols df.cols).cg ∧
        (resolveExtCols df.cols).cy ≠ (resolveExtCols df.cols).cf ∧
        (resolveExtCols df.cols).cy ≠ (resolveExtCols df.cols).ca ∧
        (resolveExtCols df.cols).cg ≠ (resolveExtCols df.cols).cf ∧
        (resolveExtCols df.cols).cg ≠ (resolveExtCols df.cols).ca ∧
        (resolveExtCols df.cols).cf ≠ (resolveExtCols df.cols).ca ∧
        df.cols.count (resolveExtCols df.cols).cy = 1 ∧
        df.cols.count (resolveExtCols df.cols).cg = 1 ∧
        df.cols.count (resolveExtCols df.cols).cf = 1 ∧
        df.cols.count (resolveExtCols df.cols).ca = 1) →
      (∀ r ∈ df.rows,
        (extRowDate (r.getD ((colIndexOf df.cols (resolveExtCols df.cols).cy).getD 0)
          Cell.nan)).isSome = true) →
      ∃ l, compute_extinction_index today df = Except.ok l := by
  intro today df h1 h2 h3 h4 hdup h5
  obtain ⟨iy, hiy⟩ := Option.isSome_iff_exists.mp (colIndexOf_isSome _ _ h1)
  obtain ⟨ig, hig⟩ := Option.isSome_iff_exists.mp (colIndexOf_isSome _ _ h2)
  obtain ⟨i2, hi2⟩ := Option.isSome_iff_exists.mp (colIndexOf_isSome _ _ h3)
  obtain ⟨i6, hi6⟩ := Option.isSome_iff_exists.mp (colIndexOf_isSome _ _ h4)
  have hall : (df.rows.map (fun r =>
      (r.getD iy Cell.nan, r.getD ig Cell.nan,
        parseNumeric (r.getD i2 Cell.nan), parseNumeric (r.getD i6 Cell.nan)))).all
      (fun t => (extRowDate t.1).isSome) = true := by
    rw [List.all_eq_true]
    intro t ht
    obtain ⟨r, hr, rfl⟩ := List.mem_map.mp ht
    have h5r := h5 r hr
    rw [hiy] at h5r
    simpa using h5r
  cases hpre : extPre df with
  | ok pre =>
    refine ⟨((sortLe extRowLe (dropnaExt pre)).filter (fun r => dateLtB r.date today)).map
      (fun r => ⟨r.date, r.value, r.group, "ext_index"⟩), ?_⟩
    simp only [compute_extinction_index, hpre]
  | error e =>
    exfalso
    simp only [extPre, hiy, hig, hi2, hi6] at hpre
    rw [if_pos hdup, if_pos hall] at hpre
    exact Except.noConfusion hpre

/-- Witness for the amended C5 on the scenario frame. -/
theorem claim5_amended_no_raise_witness :
    ∃ l, compute_extinction_index todayRef scenarioDf = Except.ok l :=
  claim5_amended_no_raise todayRef scenarioDf
    (by decide) (by decide) (by decide) (by decide) (by decide) (by decide)

/-- Claim C8: on the single scenario row with the configured multiplier 100,
the calculator produces exactly one record, valued 50, dated January 1st 2024
(midnight, Asia/Seoul), grouped `종로구`, no matter the current date as long
as 2024-01-01 lies in the past. -/
theorem claim8_scenario (today : Date) (h : dateLtB ⟨2024, 1, 1⟩ today = true) :
    compute_extinction_index today scenarioDf =
      Except.ok [⟨⟨2024, 1, 1⟩, 50, Cell.str "종로구", "ext_index"⟩] :=
  compute_scenario_eval today h

/-- Witness for C8 at the reference date. -/
theorem claim8_scenario_witness :
    dateLtB ⟨2024, 1, 1⟩ todayRef = true ∧
    compute_extinction_index todayRef scenarioDf =
      Except.ok [⟨⟨2024, 1, 1⟩, 50, Cell.str "종로구", "ext_index"⟩] :=
  ⟨by decide, claim8_scenario todayRef (by decide)⟩

end Jibang
